import Mathlib

/-!
Shallow embedding of the `auconfig` package (go-autumn-config, file `setup.go`).

The package wires an ordered registry of `ConfigItem`s into the external
pflag/viper libraries.  We model the calls the package makes into those
libraries as an explicit event trace (`Event`), the pflag flag registry as a
list of `FlagReg` records, the viper defaults store as a function
`String → Option GoValue`, and the package-level mutable variables
(`configItems`, `configItemKeysWithNoFlags`, the pflag command line) as a
`GlobalState` record threaded through the operations.

Go `interface{}` default values are modelled by the closed inductive
`GoValue`; the type switch in `initializeFlags` becomes `flagKindOf`.
-/

/-- Runtime kinds a `ConfigItem.Default` can carry (`interface{}` in Go).
The constructors mirror the cases of the type switch in `initializeFlags`,
plus kinds the switch does not handle (`int64`, `uint64`, `structured`),
which fall through to the `else` branch. -/
inductive GoValue where
  | str (s : String)
  | int (n : Int)
  | int8 (n : Int)
  | int16 (n : Int)
  | int32 (n : Int)
  | int64 (n : Int)
  | uint (n : Nat)
  | uint8 (n : Nat)
  | uint16 (n : Nat)
  | uint32 (n : Nat)
  | uint64 (n : Nat)
  | bool (b : Bool)
  | strSlice (xs : List String)
  | structured (typeName : String)
  deriving DecidableEq

/-- The pflag flag kinds the package can register
(`pflag.String`, `pflag.Int`, ..., `pflag.StringSlice`). -/
inductive FlagKind where
  | str
  | int
  | int8
  | int16
  | int32
  | uint
  | uint8
  | uint16
  | uint32
  | bool
  | strSlice
  deriving DecidableEq

/-- The type switch of `initializeFlags`: which pflag kind (if any) matches a
default value's runtime kind.  `none` is the `else` branch (unsupported). -/
def flagKindOf : GoValue → Option FlagKind
  | GoValue.str _ => some FlagKind.str
  | GoValue.int _ => some FlagKind.int
  | GoValue.int8 _ => some FlagKind.int8
  | GoValue.int16 _ => some FlagKind.int16
  | GoValue.int32 _ => some FlagKind.int32
  | GoValue.uint _ => some FlagKind.uint
  | GoValue.uint8 _ => some FlagKind.uint8
  | GoValue.uint16 _ => some FlagKind.uint16
  | GoValue.uint32 _ => some FlagKind.uint32
  | GoValue.bool _ => some FlagKind.bool
  | GoValue.strSlice _ => some FlagKind.strSlice
  | GoValue.int64 _ => none
  | GoValue.uint64 _ => none
  | GoValue.structured _ => none

/-- The null default value `initializeFlags` registers for each flag kind
(`""`, `0`, `false`, `[]string{}`). -/
def zeroValue : FlagKind → GoValue
  | FlagKind.str => GoValue.str ""
  | FlagKind.int => GoValue.int 0
  | FlagKind.int8 => GoValue.int8 0
  | FlagKind.int16 => GoValue.int16 0
  | FlagKind.int32 => GoValue.int32 0
  | FlagKind.uint => GoValue.uint 0
  | FlagKind.uint8 => GoValue.uint8 0
  | FlagKind.uint16 => GoValue.uint16 0
  | FlagKind.uint32 => GoValue.uint32 0
  | FlagKind.bool => GoValue.bool false
  | FlagKind.strSlice => GoValue.strSlice []

/-- `auconfigapi.ConfigItem`: one declared configuration key.  `validate`
returns `some message` for an error and `none` for nil. -/
structure ConfigItem where
  key : String
  default : GoValue
  description : String
  envName : String
  flagName : String
  validate : String → Option String

/-- One call made into the external pflag/viper libraries or into one of the
registered callbacks.  `panicEvent` models the package-level `fail` function,
whose body is `panic(err)`; `failCallback` models an invocation of the
caller-supplied `failFunction`; `warnCall` an invocation of `warnFunction`. -/
inductive Event where
  | registerFlag (name : String) (kind : FlagKind) (defaultVal : GoValue) (descr : String)
  | parseFlags
  | setDefault (key : String) (value : GoValue)
  | bindEnv (key : String) (envName : String)
  | bindFlag (key : String) (flagname : String)
  | warnCall (message : String)
  | failCallback (message : String)
  | panicEvent (message : String)
  | validateCall (key : String)
  | readFiles
  deriving DecidableEq

/-- A flag registered with pflag: name, kind, registered default, help text. -/
structure FlagReg where
  name : String
  kind : FlagKind
  defaultVal : GoValue
  description : String
  deriving DecidableEq

/-- The character class `[a-z0-9]` of the regexp in `setupEnv`
(code points 97–122 and 48–57). -/
def inLowerAlnum (c : Char) : Bool :=
  (Char.toNat 'a' ≤ c.toNat && c.toNat ≤ Char.toNat 'z')
    || (Char.toNat '0' ≤ c.toNat && c.toNat ≤ Char.toNat '9')

/-- `re.ReplaceAllString(key, "_")` for `re = [^a-z0-9]`: every character
outside `[a-z0-9]` becomes `_`. -/
def envReplace (s : String) : String :=
  String.mk (s.data.map (fun c => if inLowerAlnum c then c else '_'))

/-- The derived environment variable name `"CONFIG_" + re.ReplaceAllString(key, "_")`. -/
def derivedEnvName (key : String) : String :=
  "CONFIG_" ++ envReplace key

/-- The environment variable name actually passed to `viper.BindEnv` for an
item: the derived name when `EnvName` is unset, the explicit one otherwise. -/
def effectiveEnvName (item : ConfigItem) : String :=
  if item.envName = "" then derivedEnvName item.key else item.envName

/-- The flag name used for an item: `FlagName` if set, else `Key`
(computed identically in `initializeFlags` and `setupFlags`). -/
def effectiveFlagName (item : ConfigItem) : String :=
  if item.flagName = "" then item.key else item.flagName

/-- The warning text of `initializeFlags` for an unsupported default kind. -/
def noFlagWarning (key : String) : String :=
  "unsupported data type for config item " ++ key
    ++ ", cannot initialize command line argument, skipping this key"

/-- The error text `bindFlag` passes to `failFunction` when `viper.BindPFlag`
fails (the `%s: %s\n` format trimmed to its key part). -/
def bindFailMsg (key : String) : String :=
  "Fatal error could not bind configuration flag " ++ key

/-- State accumulated while registering flags: the pflag command line
(`flags`), the package-global `configItemKeysWithNoFlags` set (as a
duplicate-free list, matching the Go map), and the trace of calls made. -/
structure FlagState where
  flags : List FlagReg
  noFlagKeys : List String
  events : List Event

/-- One iteration of the loop in `initializeFlags`: a supported default kind
registers a flag with the null default of that kind; an unsupported kind
records the key in the no-flag set and warns via `warnFunction`. -/
def initFlagsStep (s : FlagState) (item : ConfigItem) : FlagState :=
  match flagKindOf item.default with
  | some k =>
    { s with
      flags := s.flags ++ [⟨effectiveFlagName item, k, zeroValue k, item.description⟩],
      events := s.events
        ++ [Event.registerFlag (effectiveFlagName item) k (zeroValue k) item.description] }
  | none =>
    { s with
      noFlagKeys :=
        if item.key ∈ s.noFlagKeys then s.noFlagKeys else s.noFlagKeys ++ [item.key],
      events := s.events ++ [Event.warnCall (noFlagWarning item.key)] }

/-- The two always-registered path flags (`pflag.StringVar` calls), whose
defaults are the caller-supplied override paths. -/
def pathFlags (cfgPath secPath : String) : List FlagReg :=
  [⟨"config-path", FlagKind.str, GoValue.str cfgPath, "config file path without file name"⟩,
   ⟨"secrets-path", FlagKind.str, GoValue.str secPath, "secrets file path without file name"⟩]

/-- Registration events for the two path flags. -/
def pathFlagEvents (cfgPath secPath : String) : List Event :=
  [Event.registerFlag "config-path" FlagKind.str (GoValue.str cfgPath)
     "config file path without file name",
   Event.registerFlag "secrets-path" FlagKind.str (GoValue.str secPath)
     "secrets file path without file name"]

/-- `initializeFlags`: registers the two path flags, then walks the registry. -/
def initFlags (s0 : FlagState) (items : List ConfigItem) (cfgPath secPath : String) :
    FlagState :=
  items.foldl initFlagsStep
    { s0 with
      flags := s0.flags ++ pathFlags cfgPath secPath,
      events := s0.events ++ pathFlagEvents cfgPath secPath }

/-- Modelled return value of the external `viper.BindEnv` call: per the
source comment in `setupEnv` ("the only error that can occur is when the Key
is empty"), it errors exactly on an empty key. -/
def bindEnvResult (key : String) : Option String :=
  if key = "" then some "missing key to bind to" else none

/-- `setupEnv`: for each item, fill in `EnvName` on the loop-local copy if
unset (Go `range` yields a copy of the slice element, so the assignment
`item.EnvName = ...` never reaches the caller's slice), call
`viper.BindEnv(key, envName)` and discard its error (`_ =`).
Returns the slice as the loop leaves it, paired with the call trace. -/
def setupEnv : List ConfigItem → List ConfigItem × List Event
  | [] => ([], [])
  | it :: rest =>
    let item := if it.envName = "" then { it with envName := derivedEnvName it.key } else it
    let _discardedErr := bindEnvResult item.key
    let restResult := setupEnv rest
    (it :: restResult.1, Event.bindEnv item.key item.envName :: restResult.2)

/-- `bindFlag`: `viper.BindPFlag(key, pflag.Lookup(flagname))`.  When no flag
of that name was registered, the bind errors and `failFunction` is invoked. -/
def bindFlagEvents (flags : List FlagReg) (key flagname : String) : List Event :=
  if flags.any (fun f => f.name = flagname) then [Event.bindFlag key flagname]
  else [Event.failCallback (bindFailMsg key)]

/-- `setupFlags`: binds every item whose key is not in the no-flag set. -/
def setupFlags (fs : FlagState) (items : List ConfigItem) : List Event :=
  (items.filter (fun i => i.key ∉ fs.noFlagKeys)).flatMap
    (fun i => bindFlagEvents fs.flags i.key (effectiveFlagName i))

/-- `setupDefaults`: one `viper.SetDefault(key, default)` call per item. -/
def setupDefaults (items : List ConfigItem) : List Event :=
  items.map (fun i => Event.setDefault i.key i.default)

/-- The viper defaults store: key to most recently set default. -/
def Store : Type := String → Option GoValue

/-- `viper.SetDefault`: overwrite the default registered for one key. -/
def storeSet (s : Store) (k : String) (v : GoValue) : Store :=
  fun q => if q = k then some v else s q

/-- Effect of `setupDefaults` on the viper defaults store. -/
def setDefaultsStore (s0 : Store) (items : List ConfigItem) : Store :=
  items.foldl (fun st i => storeSet st i.key i.default) s0

/-- `validate`: runs each item's `Validate(Key)` in registry order; on the
first error the code calls the package-level `fail` function — not the
registered `failFunction` — and `fail` panics, aborting the loop. -/
def validate : List ConfigItem → List Event
  | [] => []
  | item :: rest =>
    match item.validate item.key with
    | some err => [Event.validateCall item.key, Event.panicEvent err]
    | none => Event.validateCall item.key :: validate rest

/-- The package-level mutable state: `configItems`, `configItemKeysWithNoFlags`,
the pflag command line, and the viper defaults store. -/
structure GlobalState where
  configItems : List ConfigItem
  noFlagKeys : List String
  flags : List FlagReg
  store : Store

/-- `SetupWithOverriddenConfigPath`: assigns the registry, runs
`initializeFlags`, `pflag.Parse()`, `setupDefaults`, `setupEnv`, `setupFlags`.
Returns the new package state and the trace of external calls. -/
def setupWithOverriddenConfigPath (g : GlobalState) (items : List ConfigItem)
    (cfgPath secPath : String) : GlobalState × List Event :=
  let fs := initFlags { flags := g.flags, noFlagKeys := g.noFlagKeys, events := [] }
    items cfgPath secPath
  ({ configItems := items, noFlagKeys := fs.noFlagKeys, flags := fs.flags,
     store := setDefaultsStore g.store items },
   fs.events ++ [Event.parseFlags] ++ setupDefaults items ++ (setupEnv items).2
     ++ setupFlags fs items)

/-- The exported entry points (`Setup` delegates to
`SetupWithOverriddenConfigPath` with empty paths; `Load` runs `performLoad`
then `validate`; `SetupDefaultsOnly` assigns the registry and runs only
`setupDefaults`). -/
inductive Op where
  | setup (items : List ConfigItem) (cfgPath secPath : String)
  | setupDefaultsOnly (items : List ConfigItem)
  | load

/-- Executes one exported entry point against the package state. -/
def runOp (g : GlobalState) : Op → GlobalState × List Event
  | Op.setup items cfgPath secPath => setupWithOverriddenConfigPath g items cfgPath secPath
  | Op.setupDefaultsOnly items =>
    ({ g with configItems := items, store := setDefaultsStore g.store items },
     setupDefaults items)
  | Op.load => (g, Event.readFiles :: validate g.configItems)

/-- Is an event one of the three source registrations (default, environment
binding, flag binding)? -/
def isSrcReg : Event → Bool
  | Event.setDefault _ _ => true
  | Event.bindEnv _ _ => true
  | Event.bindFlag _ _ => true
  | _ => false

/-- Example item from the README: `server.address` with a string default. -/
def itServerAddress : ConfigItem :=
  { key := "server.address", default := GoValue.str "",
    description := "ip address or hostname to listen on", envName := "", flagName := "",
    validate := fun _ => none }

/-- Example item with uppercase letters in the key and no explicit `EnvName`. -/
def itUpperKey : ConfigItem :=
  { key := "Server.Port", default := GoValue.uint 8080,
    description := "port to listen on", envName := "", flagName := "",
    validate := fun _ => none }

/-- Example boolean item whose real default is `true`. -/
def itDebugMode : ConfigItem :=
  { key := "debug.mode", default := GoValue.bool true,
    description := "enable debug mode", envName := "", flagName := "",
    validate := fun _ => none }

/-- Example item with a structured-record default (unsupported for flags). -/
def itStructured : ConfigItem :=
  { key := "some.key", default := GoValue.structured "TopLevelStructuredConfig",
    description := "example for a config key that contains a whole structure",
    envName := "", flagName := "", validate := fun _ => none }

/-- Example item with an empty key (the env-binding failure case). -/
def itEmptyKey : ConfigItem :=
  { key := "", default := GoValue.str "x",
    description := "item with empty key", envName := "", flagName := "broken",
    validate := fun _ => none }

/-- Example item whose validator always rejects, as in the README's port check. -/
def itBadPort : ConfigItem :=
  { key := "server.port", default := GoValue.uint 80,
    description := "port to listen on", envName := "", flagName := "",
    validate := fun k =>
      some ("Fatal error: configuration value for key " ++ k ++ " is not in range 1024..65535") }

/-- A fresh process state: empty registry, empty no-flag set, no flags, empty store. -/
def freshState : GlobalState :=
  { configItems := [], noFlagKeys := [], flags := [], store := fun _ => none }

/-- The per-item calls of the `initializeFlags` loop, written as a direct
recursion (used to characterize the fold in `initFlags`). -/
def itemFlagEvents : List ConfigItem → List Event
  | [] => []
  | i :: rest =>
    (match flagKindOf i.default with
     | some k => [Event.registerFlag (effectiveFlagName i) k (zeroValue k) i.description]
     | none => [Event.warnCall (noFlagWarning i.key)]) ++ itemFlagEvents rest

/-- Is the event an invocation of the caller-supplied `failFunction`? -/
def isFailCallback : Event → Bool
  | Event.failCallback _ => true
  | _ => false

/-- Is the event an invocation of the caller-supplied `warnFunction`? -/
def isWarnCall : Event → Bool
  | Event.warnCall _ => true
  | _ => false

/-- Is the event a panic raised by the package-level `fail` function? -/
def isPanicEvent : Event → Bool
  | Event.panicEvent _ => true
  | _ => false

/-- Is the event a `viper.BindEnv` call? -/
def isBindEnv : Event → Bool
  | Event.bindEnv _ _ => true
  | _ => false

/-- Is the event a `viper.SetDefault` call? -/
def isSetDefault : Event → Bool
  | Event.setDefault _ _ => true
  | _ => false

/-- Is the event a `viper.BindPFlag` call for the given key? -/
def isBindFlagFor (key : String) : Event → Bool
  | Event.bindFlag k _ => decide (k = key)
  | _ => false

theorem setupEnv_fst (items : List ConfigItem) : (setupEnv items).1 = items := by
  induction items with
  | nil => rfl
  | cons it rest ih => simp [setupEnv, ih]

theorem setupEnv_snd (items : List ConfigItem) :
    (setupEnv items).2 = items.map (fun i => Event.bindEnv i.key (effectiveEnvName i)) := by
  induction items with
  | nil => rfl
  | cons it rest ih =>
    simp only [setupEnv, List.map_cons, ih]
    by_cases h : it.envName = ""
    · simp [h, effectiveEnvName]
    · simp [h, effectiveEnvName]

theorem initFlagsStep_flags_mono (s : FlagState) (item : ConfigItem) (f : FlagReg)
    (hf : f ∈ s.flags) : f ∈ (initFlagsStep s item).flags := by
  unfold initFlagsStep
  cases flagKindOf item.default <;> simp [hf]

theorem initFlagsStep_noFlagKeys_mono (s : FlagState) (item : ConfigItem) (k : String)
    (hk : k ∈ s.noFlagKeys) : k ∈ (initFlagsStep s item).noFlagKeys := by
  unfold initFlagsStep
  cases flagKindOf item.default with
  | some fk => simpa using hk
  | none =>
    simp only []
    by_cases h : item.key ∈ s.noFlagKeys <;> simp [h, hk]

theorem foldl_flags_mono (items : List ConfigItem) (s : FlagState) (f : FlagReg)
    (hf : f ∈ s.flags) : f ∈ (items.foldl initFlagsStep s).flags := by
  induction items generalizing s with
  | nil => simpa using hf
  | cons a rest ih =>
    simp only [List.foldl_cons]
    exact ih _ (initFlagsStep_flags_mono s a f hf)

theorem foldl_noFlagKeys_mono (items : List ConfigItem) (s : FlagState) (k : String)
    (hk : k ∈ s.noFlagKeys) : k ∈ (items.foldl initFlagsStep s).noFlagKeys := by
  induction items generalizing s with
  | nil => simpa using hk
  | cons a rest ih =>
    simp only [List.foldl_cons]
    exact ih _ (initFlagsStep_noFlagKeys_mono s a k hk)

theorem supported_flag_registered (items : List ConfigItem) (s : FlagState)
    (i : ConfigItem) (k : FlagKind) (hi : i ∈ items) (hk : flagKindOf i.default = some k) :
    (⟨effectiveFlagName i, k, zeroValue k, i.description⟩ : FlagReg)
      ∈ (items.foldl initFlagsStep s).flags := by
  induction items generalizing s with
  | nil => cases hi
  | cons a rest ih =>
    simp only [List.foldl_cons]
    rcases List.mem_cons.mp hi with h | h
    · subst h
      apply foldl_flags_mono
      unfold initFlagsStep
      rw [hk]
      simp
    · exact ih _ h

theorem unsupported_in_noFlagKeys (items : List ConfigItem) (s : FlagState)
    (i : ConfigItem) (hi : i ∈ items) (hk : flagKindOf i.default = none) :
    i.key ∈ (items.foldl initFlagsStep s).noFlagKeys := by
  induction items generalizing s with
  | nil => cases hi
  | cons a rest ih =>
    simp only [List.foldl_cons]
    rcases List.mem_cons.mp hi with h | h
    · subst h
      apply foldl_noFlagKeys_mono
      unfold initFlagsStep
      rw [hk]
      simp only []
      by_cases hmem : i.key ∈ s.noFlagKeys <;> simp [hmem]
    · exact ih _ h

theorem foldl_events_eq (items : List ConfigItem) (s : FlagState) :
    (items.foldl initFlagsStep s).events = s.events ++ itemFlagEvents items := by
  induction items generalizing s with
  | nil => simp [itemFlagEvents]
  | cons a rest ih =>
    simp only [List.foldl_cons, itemFlagEvents]
    rw [ih]
    unfold initFlagsStep
    cases flagKindOf a.default <;> simp

theorem noFlagWarning_inj {a b : String} (h : noFlagWarning a = noFlagWarning b) : a = b := by
  unfold noFlagWarning at h
  have hd := congrArg String.data h
  simp only [String.data_append] at hd
  have h1 := List.append_cancel_right hd
  have h2 := List.append_cancel_left h1
  cases a; cases b; exact congrArg String.mk h2

theorem itemFlagEvents_count_warn (items : List ConfigItem) (key : String) :
    (itemFlagEvents items).count (Event.warnCall (noFlagWarning key))
      = (items.filter (fun j => flagKindOf j.default = none ∧ j.key = key)).length := by
  induction items with
  | nil => simp [itemFlagEvents]
  | cons a rest ih =>
    simp only [itemFlagEvents]
    rw [List.count_append]
    cases hk : flagKindOf a.default with
    | some k =>
      rw [List.filter_cons]
      have hpa : (decide (flagKindOf a.default = none ∧ a.key = key)) = false := by
        simp [hk]
      rw [hpa]
      simp only [List.count_cons, List.count_nil, ih]
      simp
    | none =>
      rw [List.filter_cons]
      by_cases hkey : a.key = key
      · have hpa : (decide (flagKindOf a.default = none ∧ a.key = key)) = true := by
          simp [hk, hkey]
        rw [hpa]
        simp only [List.length_cons, ih]
        have : Event.warnCall (noFlagWarning key) = Event.warnCall (noFlagWarning a.key) := by
          rw [hkey]
        simp [List.count_cons, this, ih]
        omega
      · have hpa : (decide (flagKindOf a.default = none ∧ a.key = key)) = false := by
          simp [hk, hkey]
        rw [hpa]
        have hne : ¬ (Event.warnCall (noFlagWarning key) = Event.warnCall (noFlagWarning a.key)) := by
          intro hcon
          simp only [Event.warnCall.injEq] at hcon
          exact hkey (noFlagWarning_inj hcon.symm)
        simp [List.count_cons, hne, ih]

theorem filter_key_length_one (items : List ConfigItem) (i : ConfigItem)
    (hnd : (items.map ConfigItem.key).Nodup) (hi : i ∈ items)
    (hk : flagKindOf i.default = none) :
    (items.filter (fun j => flagKindOf j.default = none ∧ j.key = i.key)).length = 1 := by
  induction items with
  | nil => cases hi
  | cons a rest ih =>
    simp only [List.map_cons, List.nodup_cons] at hnd
    rw [List.filter_cons]
    rcases List.mem_cons.mp hi with h | h
    · subst h
      have hpa : (decide (flagKindOf i.default = none ∧ i.key = i.key)) = true := by
        simp [hk]
      rw [hpa]
      simp only [List.length_cons]
      have hnil : rest.filter (fun j => flagKindOf j.default = none ∧ j.key = i.key) = [] := by
        apply List.filter_eq_nil_iff.mpr
        intro j hj hcon
        simp only [decide_eq_true_eq] at hcon
        exact hnd.1 (hcon.2 ▸ List.mem_map_of_mem ConfigItem.key hj)
      rw [hnil]
      rfl
    · have hne : a.key ≠ i.key := by
        intro hcon
        exact hnd.1 (hcon ▸ List.mem_map_of_mem ConfigItem.key h)
      have hpa : (decide (flagKindOf a.default = none ∧ a.key = i.key)) = false := by
        simp [hne]
      rw [hpa]
      exact ih hnd.2 h

theorem setDefaultsStore_not_mem (items : List ConfigItem) (s : Store) (k : String)
    (hk : k ∉ items.map ConfigItem.key) : setDefaultsStore s items k = s k := by
  induction items generalizing s with
  | nil => rfl
  | cons a rest ih =>
    simp only [List.map_cons, List.mem_cons] at hk
    push_neg at hk
    have hstep : setDefaultsStore s (a :: rest)
        = setDefaultsStore (storeSet s a.key a.default) rest := rfl
    rw [hstep, ih _ hk.2]
    simp [storeSet, hk.1]

theorem setDefaultsStore_get (items : List ConfigItem) (s : Store) (i : ConfigItem)
    (hnd : (items.map ConfigItem.key).Nodup) (hi : i ∈ items) :
    setDefaultsStore s items i.key = some i.default := by
  induction items generalizing s with
  | nil => cases hi
  | cons a rest ih =>
    simp only [List.map_cons, List.nodup_cons] at hnd
    have hstep : setDefaultsStore s (a :: rest)
        = setDefaultsStore (storeSet s a.key a.default) rest := rfl
    rw [hstep]
    rcases List.mem_cons.mp hi with h | h
    · subst h
      rw [setDefaultsStore_not_mem _ _ _ hnd.1]
      simp [storeSet]
    · exact ih _ hnd.2 h

theorem flatMap_singleton_eq_map {α β : Type} (l : List α) (f : α → List β) (g : α → β)
    (h : ∀ x ∈ l, f x = [g x]) : l.flatMap f = l.map g := by
  induction l with
  | nil => rfl
  | cons a rest ih =>
    simp only [List.flatMap_cons, List.map_cons]
    rw [h a (List.mem_cons_self a rest), ih (fun x hx => h x (List.mem_cons_of_mem a hx))]
    rfl

theorem setupFlags_bindFlag_not_noFlag (fs : FlagState) (items : List ConfigItem)
    (k fn : String) (h : Event.bindFlag k fn ∈ setupFlags fs items) : k ∉ fs.noFlagKeys := by
  unfold setupFlags at h
  rcases List.mem_flatMap.mp h with ⟨j, hj, hev⟩
  have hjf := List.mem_filter.mp hj
  have hnot : j.key ∉ fs.noFlagKeys := by simpa using hjf.2
  unfold bindFlagEvents at hev
  by_cases hany : (fs.flags.any (fun f => f.name = effectiveFlagName j)) = true
  · rw [if_pos hany] at hev
    simp only [List.mem_singleton, Event.bindFlag.injEq] at hev
    exact hev.1 ▸ hnot
  · rw [if_neg hany] at hev
    simp at hev

theorem supported_of_not_noFlag (items : List ConfigItem) (s : FlagState) (i : ConfigItem)
    (hi : i ∈ items) (hni : i.key ∉ (items.foldl initFlagsStep s).noFlagKeys) :
    ∃ k, flagKindOf i.default = some k := by
  cases hk : flagKindOf i.default with
  | some k => exact ⟨k, rfl⟩
  | none => exact absurd (unsupported_in_noFlagKeys items s i hi hk) hni

theorem setupFlags_foldl_eq_map (s0 : FlagState) (items : List ConfigItem) :
    setupFlags (items.foldl initFlagsStep s0) items
      = (items.filter
          (fun i => i.key ∉ (items.foldl initFlagsStep s0).noFlagKeys)).map
          (fun i => Event.bindFlag i.key (effectiveFlagName i)) := by
  unfold setupFlags
  apply flatMap_singleton_eq_map
  intro j hj
  have hjf := List.mem_filter.mp hj
  have hnot : j.key ∉ (items.foldl initFlagsStep s0).noFlagKeys := by simpa using hjf.2
  obtain ⟨k, hk⟩ := supported_of_not_noFlag items s0 j hjf.1 hnot
  have hreg := supported_flag_registered items s0 j k hjf.1 hk
  unfold bindFlagEvents
  rw [if_pos]
  apply List.any_eq_true.mpr
  exact ⟨_, hreg, by simp⟩

theorem itemFlagEvents_kinds (items : List ConfigItem) (e : Event)
    (he : e ∈ itemFlagEvents items) :
    (∃ n k v d, e = Event.registerFlag n k v d) ∨ (∃ m, e = Event.warnCall m) := by
  induction items with
  | nil => cases he
  | cons a rest ih =>
    simp only [itemFlagEvents] at he
    rcases List.mem_append.mp he with h | h
    · cases hk : flagKindOf a.default with
      | some k =>
        rw [hk] at h
        simp only [List.mem_singleton] at h
        exact Or.inl ⟨_, _, _, _, h⟩
      | none =>
        rw [hk] at h
        simp only [List.mem_singleton] at h
        exact Or.inr ⟨_, h⟩
    · exact ih h

theorem initFlags_events_kinds (fl0 : List FlagReg) (nf0 : List String)
    (items : List ConfigItem) (p q : String) (e : Event)
    (he : e ∈ (initFlags ⟨fl0, nf0, []⟩ items p q).events) :
    (∃ n k v d, e = Event.registerFlag n k v d) ∨ (∃ m, e = Event.warnCall m) := by
  unfold initFlags at he
  rw [foldl_events_eq] at he
  simp only [List.nil_append] at he
  rcases List.mem_append.mp he with h | h
  · unfold pathFlagEvents at h
    rcases List.mem_cons.mp h with h1 | h1
    · exact Or.inl ⟨_, _, _, _, h1⟩
    · simp only [List.mem_singleton] at h1
      exact Or.inl ⟨_, _, _, _, h1⟩
  · exact itemFlagEvents_kinds items e h

/-- C1: for every item whose `envName` is empty, the derived environment
variable name is `CONFIG_` followed by the key with every character outside
`[a-z0-9]` replaced by `_`, and `setupEnv` binds exactly this derived name
for the item's key. -/
theorem derived_env_name_for_unset_envName (items : List ConfigItem) (i : ConfigItem)
    (hi : i ∈ items) (he : i.envName = "") :
    (derivedEnvName i.key).data
        = "CONFIG_".data ++ i.key.data.map (fun c => if inLowerAlnum c then c else '_')
      ∧ Event.bindEnv i.key (derivedEnvName i.key) ∈ (setupEnv items).2 := by
  constructor
  · simp [derivedEnvName, envReplace, String.data_append]
  · rw [setupEnv_snd]
    have hev : Event.bindEnv i.key (derivedEnvName i.key)
        = Event.bindEnv i.key (effectiveEnvName i) := by
      simp [effectiveEnvName, he]
    rw [hev]
    exact List.mem_map_of_mem _ hi

/-- Witness for C1 at the README's `server.address` item. -/
theorem derived_env_name_for_unset_envName_witness :
    itServerAddress.envName = ""
      ∧ Event.bindEnv itServerAddress.key (derivedEnvName itServerAddress.key)
          ∈ (setupEnv [itServerAddress]).2
      ∧ derivedEnvName itServerAddress.key = "CONFIG_server_address" :=
  ⟨rfl,
   (derived_env_name_for_unset_envName [itServerAddress] itServerAddress
      (List.mem_singleton.mpr rfl) rfl).2,
   by decide⟩

/-- C2 counterexample: for key `Server.Port` with unset `envName`, `setupEnv`
binds `CONFIG__erver__ort` — the uppercase letters `S` and `P` are outside
`[a-z0-9]` and are replaced by `_` — not `CONFIG_Server_Port`. -/
theorem uppercase_preserved_counterexample :
    (setupEnv [itUpperKey]).2 = [Event.bindEnv "Server.Port" "CONFIG__erver__ort"]
      ∧ derivedEnvName "Server.Port" ≠ "CONFIG_Server_Port" := by
  constructor
  · decide
  · decide

/-- C2 amended: uppercase letters do not pass through: every character of the
replaced portion of the derived name lies outside the uppercase range
`A`–`Z` (code points 65–90), because `[^a-z0-9]` matches uppercase letters
and replaces them with `_`. -/
theorem derived_env_name_no_uppercase (key : String) (c : Char)
    (hc : c ∈ (envReplace key).data) :
    ¬ (Char.toNat 'A' ≤ c.toNat ∧ c.toNat ≤ Char.toNat 'Z') := by
  have hc' : c ∈ key.data.map (fun c => if inLowerAlnum c then c else '_') := hc
  rcases List.mem_map.mp hc' with ⟨c0, _, rfl⟩
  by_cases h : inLowerAlnum c0
  · rw [if_pos h]
    unfold inLowerAlnum at h
    simp only [Bool.or_eq_true, Bool.and_eq_true, decide_eq_true_eq] at h
    have ha : Char.toNat 'a' = 97 := rfl
    have hz : Char.toNat 'z' = 122 := rfl
    have h0 : Char.toNat '0' = 48 := rfl
    have h9 : Char.toNat '9' = 57 := rfl
    have hA : Char.toNat 'A' = 65 := rfl
    have hZ : Char.toNat 'Z' = 90 := rfl
    rw [ha, hz, h0, h9] at h
    rw [hA, hZ]
    omega
  · rw [if_neg h]
    decide

/-- Witness for the amended C2 at key `Server.Port`: the underscore that
replaced `S` is present and is not an uppercase letter. -/
theorem derived_env_name_no_uppercase_witness :
    '_' ∈ (envReplace "Server.Port").data
      ∧ ¬ (Char.toNat 'A' ≤ '_'.toNat ∧ '_'.toNat ≤ Char.toNat 'Z') :=
  ⟨by decide, derived_env_name_no_uppercase "Server.Port" '_' (by decide)⟩

/-- C3 (code-bug evidence): on the first validation error, `validate` reaches
the package-level `fail` — whose body is `panic(err)` — rather than the
caller-supplied `failFunction`; the loop stops there, so later items are not
validated, but the registered fail callback is never invoked. -/
theorem validate_panics_instead_of_callback :
    validate [itBadPort, itServerAddress]
      = [Event.validateCall "server.port",
         Event.panicEvent
           "Fatal error: configuration value for key server.port is not in range 1024..65535"]
      ∧ ((validate [itBadPort, itServerAddress]).all (fun e => !(isFailCallback e))) = true := by
  constructor
  · rfl
  · rfl

/-- C6: environment-bind failures are silently ignored.  Even when an item's
key is empty — the one case where `viper.BindEnv` errors — the `setupEnv`
trace consists solely of `BindEnv` calls: no fail callback, no warning, no
panic is ever produced by this pass. -/
theorem env_bind_failure_ignored (items : List ConfigItem) (i : ConfigItem)
    (_hi : i ∈ items) (hkey : i.key = "") :
    bindEnvResult i.key ≠ none
      ∧ ((setupEnv items).2.all isBindEnv) = true := by
  constructor
  · rw [hkey]
    simp [bindEnvResult]
  · rw [setupEnv_snd]
    apply List.all_eq_true.mpr
    intro e he
    rcases List.mem_map.mp he with ⟨j, _, rfl⟩
    rfl

/-- Witness for C6 at an item with an empty key. -/
theorem env_bind_failure_ignored_witness :
    itEmptyKey.key = ""
      ∧ bindEnvResult itEmptyKey.key ≠ none
      ∧ ((setupEnv [itEmptyKey, itServerAddress]).2.all isBindEnv) = true :=
  ⟨rfl,
   (env_bind_failure_ignored [itEmptyKey, itServerAddress] itEmptyKey
      (List.mem_cons_self _ _) rfl).1,
   (env_bind_failure_ignored [itEmptyKey, itServerAddress] itEmptyKey
      (List.mem_cons_self _ _) rfl).2⟩

/-- C9 counterexample: after `setupEnv`, the caller's `server.address` record
still has an empty `envName`; the claimed backfill of the derived name into
the caller's record does not happen (Go `range` iterates over copies). -/
theorem envName_backfill_counterexample :
    ((setupEnv [itServerAddress]).1.map (fun i => i.envName)) = [""]
      ∧ derivedEnvName "server.address" ≠ "" := by
  exact ⟨rfl, by decide⟩

/-- C9 amended: the resolver never mutates the caller's `ConfigItem` records
at all: the `envName` backfill is applied to a loop-local copy that is only
used to compute the bound environment variable name, and the registry held in
the package state after a full setup is the caller's list unchanged. -/
theorem resolver_never_mutates_items (g : GlobalState) (items : List ConfigItem)
    (cfgPath secPath : String) :
    (setupEnv items).1 = items
      ∧ (setupWithOverriddenConfigPath g items cfgPath secPath).1.configItems = items := by
  exact ⟨setupEnv_fst items, rfl⟩

/-- C4: every item with a supported default kind gets a flag of the matching
kind registered under its effective flag name, and the registered default is
the neutral zero value of that kind — not the item's declared default. -/
theorem supported_kind_registers_neutral_flag (fl0 : List FlagReg) (nf0 : List String)
    (items : List ConfigItem) (cfgPath secPath : String) (i : ConfigItem) (k : FlagKind)
    (hi : i ∈ items) (hk : flagKindOf i.default = some k) :
    (⟨effectiveFlagName i, k, zeroValue k, i.description⟩ : FlagReg)
      ∈ (initFlags ⟨fl0, nf0, []⟩ items cfgPath secPath).flags := by
  unfold initFlags
  exact supported_flag_registered items _ i k hi hk

/-- Witness for C4 at a boolean item whose real default is `true`: the
registered flag's default is `false`, which differs from the item's default. -/
theorem supported_kind_registers_neutral_flag_witness :
    flagKindOf itDebugMode.default = some FlagKind.bool
      ∧ (⟨effectiveFlagName itDebugMode, FlagKind.bool, zeroValue FlagKind.bool,
            itDebugMode.description⟩ : FlagReg)
          ∈ (initFlags ⟨[], [], []⟩ [itDebugMode] "" "").flags
      ∧ zeroValue FlagKind.bool ≠ itDebugMode.default :=
  ⟨rfl,
   supported_kind_registers_neutral_flag [] [] [itDebugMode] "" "" itDebugMode FlagKind.bool
     (List.mem_singleton.mpr rfl) rfl,
   by decide⟩

/-- C5: an item with an unsupported default kind registers no flag (its
`initializeFlags` iteration leaves the flag registry unchanged), its key is
recorded in the no-flag set, exactly one warning naming that key is emitted,
no fail callback and no panic occur during flag registration, and the key is
excluded from the later flag-binding pass. -/
theorem unsupported_kind_warn_and_skip (fl0 : List FlagReg) (nf0 : List String)
    (items : List ConfigItem) (cfgPath secPath : String) (i : ConfigItem)
    (hi : i ∈ items) (hk : flagKindOf i.default = none)
    (hnd : (items.map ConfigItem.key).Nodup) :
    (∀ s : FlagState, (initFlagsStep s i).flags = s.flags)
      ∧ i.key ∈ (initFlags ⟨fl0, nf0, []⟩ items cfgPath secPath).noFlagKeys
      ∧ ((initFlags ⟨fl0, nf0, []⟩ items cfgPath secPath).events.count
           (Event.warnCall (noFlagWarning i.key))) = 1
      ∧ (((initFlags ⟨fl0, nf0, []⟩ items cfgPath secPath).events.all
           (fun e => !(isFailCallback e) && !(isPanicEvent e))) = true)
      ∧ ((setupFlags (initFlags ⟨fl0, nf0, []⟩ items cfgPath secPath) items).all
           (fun e => !(isBindFlagFor i.key e))) = true := by
  have hkey_mem : i.key ∈ (initFlags ⟨fl0, nf0, []⟩ items cfgPath secPath).noFlagKeys := by
    unfold initFlags
    exact unsupported_in_noFlagKeys items _ i hi hk
  refine ⟨?_, hkey_mem, ?_, ?_, ?_⟩
  · intro s
    unfold initFlagsStep
    rw [hk]
  · unfold initFlags
    rw [foldl_events_eq]
    simp only [List.nil_append]
    rw [List.count_append]
    have hpath : (pathFlagEvents cfgPath secPath).count
        (Event.warnCall (noFlagWarning i.key)) = 0 := by
      simp [pathFlagEvents, List.count_cons, List.count_nil]
    rw [hpath, itemFlagEvents_count_warn]
    have hone := filter_key_length_one items i hnd hi hk
    omega
  · apply List.all_eq_true.mpr
    intro e he
    rcases initFlags_events_kinds fl0 nf0 items cfgPath secPath e he with
      ⟨n, k', v, d, rfl⟩ | ⟨m, rfl⟩
    · rfl
    · rfl
  · apply List.all_eq_true.mpr
    intro e he
    cases e with
    | bindFlag kk fn =>
      have hnot := setupFlags_bindFlag_not_noFlag _ items kk fn he
      simp only [isBindFlagFor, Bool.not_eq_true', decide_eq_false_iff_not]
      intro hcon
      exact (hcon ▸ hnot) hkey_mem
    | registerFlag n k' v d => rfl
    | parseFlags => rfl
    | setDefault a b => rfl
    | bindEnv a b => rfl
    | warnCall m => rfl
    | failCallback m => rfl
    | panicEvent m => rfl
    | validateCall a => rfl
    | readFiles => rfl

/-- Witness for C5 at the README's structured-default item. -/
theorem unsupported_kind_warn_and_skip_witness :
    flagKindOf itStructured.default = none
      ∧ itStructured.key
          ∈ (initFlags ⟨[], [], []⟩ [itServerAddress, itStructured] "" "").noFlagKeys
      ∧ ((initFlags ⟨[], [], []⟩ [itServerAddress, itStructured] "" "").events.count
           (Event.warnCall (noFlagWarning itStructured.key))) = 1
      ∧ ((setupFlags (initFlags ⟨[], [], []⟩ [itServerAddress, itStructured] "" "")
            [itServerAddress, itStructured]).all
           (fun e => !(isBindFlagFor itStructured.key e))) = true := by
  have h := unsupported_kind_warn_and_skip [] [] [itServerAddress, itStructured] "" ""
    itStructured (List.mem_cons_of_mem _ (List.mem_singleton.mpr rfl)) rfl (by decide)
  exact ⟨rfl, h.2.1, h.2.2.1, h.2.2.2.2⟩

/-- C8: defaults-only setup emits only `SetDefault` calls (no flag
registration, parsing, environment binding, flag binding or validation),
leaves the flag registry and the no-flag set untouched, and afterwards every
distinct key resolves to its declared default — structured records included. -/
theorem setupDefaultsOnly_only_defaults (g : GlobalState) (items : List ConfigItem)
    (hnd : (items.map ConfigItem.key).Nodup) :
    ((runOp g (Op.setupDefaultsOnly items)).2.all isSetDefault) = true
      ∧ (runOp g (Op.setupDefaultsOnly items)).2
          = items.map (fun i => Event.setDefault i.key i.default)
      ∧ (runOp g (Op.setupDefaultsOnly items)).1.flags = g.flags
      ∧ (runOp g (Op.setupDefaultsOnly items)).1.noFlagKeys = g.noFlagKeys
      ∧ ∀ i ∈ items, (runOp g (Op.setupDefaultsOnly items)).1.store i.key = some i.default := by
  refine ⟨?_, rfl, rfl, rfl, ?_⟩
  · apply List.all_eq_true.mpr
    intro e he
    have he' : e ∈ items.map (fun i => Event.setDefault i.key i.default) := he
    rcases List.mem_map.mp he' with ⟨j, _, rfl⟩
    rfl
  · intro i hi
    exact setDefaultsStore_get items g.store i hnd hi

/-- Witness for C8: two items, one with a structured default; both resolve to
their declared defaults after defaults-only setup. -/
theorem setupDefaultsOnly_only_defaults_witness :
    (([itServerAddress, itStructured].map ConfigItem.key).Nodup)
      ∧ ((runOp freshState (Op.setupDefaultsOnly [itServerAddress, itStructured])).2.all
           isSetDefault) = true
      ∧ (runOp freshState (Op.setupDefaultsOnly [itServerAddress, itStructured])).1.store
          "some.key" = some (GoValue.structured "TopLevelStructuredConfig")
      ∧ (runOp freshState (Op.setupDefaultsOnly [itServerAddress, itStructured])).1.store
          "server.address" = some (GoValue.str "") := by
  have h := setupDefaultsOnly_only_defaults freshState [itServerAddress, itStructured] (by decide)
  exact ⟨by decide, h.1,
    h.2.2.2.2 itStructured (List.mem_cons_of_mem _ (List.mem_singleton.mpr rfl)),
    h.2.2.2.2 itServerAddress (List.mem_cons_self _ _)⟩

/-- C10: the no-flag key set survives every entry point unerased — a key once
recorded stays recorded — and a later full setup never attempts a flag
binding for such a key, even when the new registry declares that key with a
supported default kind. -/
theorem noFlagKeys_never_cleared (g : GlobalState) (k : String) (hk : k ∈ g.noFlagKeys) :
    (∀ op : Op, k ∈ (runOp g op).1.noFlagKeys)
      ∧ (∀ (items : List ConfigItem) (cfgPath secPath : String),
           ((runOp g (Op.setup items cfgPath secPath)).2.all
             (fun e => !(isBindFlagFor k e))) = true) := by
  have hsub : ∀ (items : List ConfigItem) (cfgPath secPath : String),
      k ∈ (initFlags ⟨g.flags, g.noFlagKeys, []⟩ items cfgPath secPath).noFlagKeys := by
    intro items cfgPath secPath
    unfold initFlags
    exact foldl_noFlagKeys_mono items _ k hk
  constructor
  · intro op
    cases op with
    | setup items cfgPath secPath => exact hsub items cfgPath secPath
    | setupDefaultsOnly items => exact hk
    | load => exact hk
  · intro items cfgPath secPath
    apply List.all_eq_true.mpr
    intro e he
    have he' : e ∈ (initFlags ⟨g.flags, g.noFlagKeys, []⟩ items cfgPath secPath).events
        ++ [Event.parseFlags] ++ setupDefaults items ++ (setupEnv items).2
        ++ setupFlags (initFlags ⟨g.flags, g.noFlagKeys, []⟩ items cfgPath secPath) items := he
    simp only [List.mem_append] at he'
    rcases he' with ((((h1 | h2) | h3) | h4) | h5)
    · rcases initFlags_events_kinds g.flags g.noFlagKeys items cfgPath secPath e h1 with
        ⟨n, k', v, d, rfl⟩ | ⟨m, rfl⟩
      · rfl
      · rfl
    · simp only [List.mem_singleton] at h2
      subst h2
      rfl
    · have h3' : e ∈ items.map (fun i => Event.setDefault i.key i.default) := h3
      rcases List.mem_map.mp h3' with ⟨j, _, rfl⟩
      rfl
    · rw [setupEnv_snd] at h4
      rcases List.mem_map.mp h4 with ⟨j, _, rfl⟩
      rfl
    · cases e with
      | bindFlag kk fn =>
        have hnot := setupFlags_bindFlag_not_noFlag _ items kk fn h5
        simp only [isBindFlagFor, Bool.not_eq_true', decide_eq_false_iff_not]
        intro hcon
        exact (hcon ▸ hnot) (hsub items cfgPath secPath)
      | registerFlag n k' v d => rfl
      | parseFlags => rfl
      | setDefault a b => rfl
      | bindEnv a b => rfl
      | warnCall m => rfl
      | failCallback m => rfl
      | panicEvent m => rfl
      | validateCall a => rfl
      | readFiles => rfl

/-- Witness for C10: with `debug.mode` already in the no-flag set, a fresh
setup whose registry declares `debug.mode` with a supported boolean default
still performs no flag binding for that key. -/
theorem noFlagKeys_never_cleared_witness :
    "debug.mode" ∈ ({ freshState with noFlagKeys := ["debug.mode"] } : GlobalState).noFlagKeys
      ∧ ((runOp { freshState with noFlagKeys := ["debug.mode"] }
            (Op.setup [itDebugMode] "" "")).2.all
           (fun e => !(isBindFlagFor "debug.mode" e))) = true :=
  ⟨List.mem_singleton.mpr rfl,
   (noFlagKeys_never_cleared { freshState with noFlagKeys := ["debug.mode"] } "debug.mode"
      (List.mem_singleton.mpr rfl)).2 [itDebugMode] "" ""⟩

/-- C7: within a full setup, the source-registration calls occur as three
complete passes in fixed order — one `SetDefault` per item, then one
`BindEnv` per item, then one `BindPFlag` per item not in the no-flag set —
each pass visiting the items in registry order. -/
theorem setup_pass_order (g : GlobalState) (items : List ConfigItem)
    (cfgPath secPath : String) :
    ((setupWithOverriddenConfigPath g items cfgPath secPath).2.filter isSrcReg)
      = items.map (fun i => Event.setDefault i.key i.default)
        ++ items.map (fun i => Event.bindEnv i.key (effectiveEnvName i))
        ++ (items.filter (fun i =>
              i.key ∉ (setupWithOverriddenConfigPath g items cfgPath secPath).1.noFlagKeys)).map
            (fun i => Event.bindFlag i.key (effectiveFlagName i)) := by
  have htrace : (setupWithOverriddenConfigPath g items cfgPath secPath).2
      = (initFlags ⟨g.flags, g.noFlagKeys, []⟩ items cfgPath secPath).events
        ++ [Event.parseFlags] ++ setupDefaults items ++ (setupEnv items).2
        ++ setupFlags (initFlags ⟨g.flags, g.noFlagKeys, []⟩ items cfgPath secPath) items := rfl
  have hstate : (setupWithOverriddenConfigPath g items cfgPath secPath).1.noFlagKeys
      = (initFlags ⟨g.flags, g.noFlagKeys, []⟩ items cfgPath secPath).noFlagKeys := rfl
  rw [htrace, hstate]
  simp only [List.filter_append]
  have h1 : (initFlags ⟨g.flags, g.noFlagKeys, []⟩ items cfgPath secPath).events.filter
      isSrcReg = [] := by
    apply List.filter_eq_nil_iff.mpr
    intro e he
    rcases initFlags_events_kinds g.flags g.noFlagKeys items cfgPath secPath e he with
      ⟨n, k', v, d, rfl⟩ | ⟨m, rfl⟩
    · simp [isSrcReg]
    · simp [isSrcReg]
  have h2 : ([Event.parseFlags] : List Event).filter isSrcReg = [] := rfl
  have h3 : (setupDefaults items).filter isSrcReg = setupDefaults items := by
    apply List.filter_eq_self.mpr
    intro e he
    have he' : e ∈ items.map (fun i => Event.setDefault i.key i.default) := he
    rcases List.mem_map.mp he' with ⟨j, _, rfl⟩
    rfl
  have h4 : ((setupEnv items).2).filter isSrcReg = (setupEnv items).2 := by
    apply List.filter_eq_self.mpr
    intro e he
    rw [setupEnv_snd] at he
    rcases List.mem_map.mp he with ⟨j, _, rfl⟩
    rfl
  have h5 : (setupFlags (initFlags ⟨g.flags, g.noFlagKeys, []⟩ items cfgPath secPath)
        items).filter isSrcReg
      = (items.filter (fun i =>
          i.key ∉ (initFlags ⟨g.flags, g.noFlagKeys, []⟩ items cfgPath secPath).noFlagKeys)).map
          (fun i => Event.bindFlag i.key (effectiveFlagName i)) := by
    rw [show (initFlags ⟨g.flags, g.noFlagKeys, []⟩ items cfgPath secPath)
        = items.foldl initFlagsStep
            { flags := g.flags ++ pathFlags cfgPath secPath, noFlagKeys := g.noFlagKeys,
              events := [] ++ pathFlagEvents cfgPath secPath } from rfl]
    rw [setupFlags_foldl_eq_map]
    apply List.filter_eq_self.mpr
    intro e he
    rcases List.mem_map.mp he with ⟨j, _, rfl⟩
    rfl
  rw [h1, h2, h3, h4, h5, setupEnv_snd]
  simp [setupDefaults]
